import Mathlib

/-!
Verification of the configuration-resolution and resource-registry layer of
`great_expectations` (`data_context/data_context/abstract_data_context.py`),
shallowly embedded in Lean 4.

Python dictionaries are modelled as association lists `List (String × α)` with
first-match lookup; `d[k] = v` is `setA`, `del d[k]` / `store.delete_by_name`
is `eraseA`, and `{**a, **b}` is list append with the overriding map in front
of the lookup order.  Stateful methods of `AbstractDataContext` become explicit
state-passing functions over `ContextState`; Python exceptions become
`Except GEError`.  External collaborators that are not part of the source file
(the datasource class loader / constructor, the password sanitizer, the
substitution utility, file contents read from disk) are modelled from the
spec, as documented on each such definition.
-/

namespace GE2Proof

/-- Lookup in an association list, mirroring Python `dict` lookup
(first binding wins; maps built by `setA` keep keys unique). -/
def lookupA {α : Type} (d : List (String × α)) (k : String) : Option α :=
  (d.find? (fun p => p.1 == k)).map (fun p => p.2)

/-- Python `d[k] = v`: bind `k` to `v`, dropping any previous binding. -/
def setA {α : Type} (d : List (String × α)) (k : String) (v : α) :
    List (String × α) :=
  (k, v) :: d.filter (fun p => !(p.1 == k))

/-- Python `del d[k]` / store deletion: remove every binding of `k`. -/
def eraseA {α : Type} (d : List (String × α)) (k : String) :
    List (String × α) :=
  d.filter (fun p => !(p.1 == k))

/-- The keys of an association list, in order (Python `dict.keys()` /
`store.list_keys()`). -/
def keysA {α : Type} (d : List (String × α)) : List String :=
  d.map (fun p => p.1)

/-- A flat string-to-string configuration mapping. -/
abbrev ConfigDict := List (String × String)

/-! ### The substitution engine

`substitute_all_config_variables` lives in `great_expectations/data_context/util.py`,
which is not part of the source under verification; it is modelled from the
spec (§4.1): scan each scalar string for `${name}` / `$(name)` placeholders,
replace a placeholder with `substitutions[name]` when present, leave it
literal when absent, and let an immediately preceding `\` escape suppress the
substitution while being stripped from the output. -/

/-- Scan until the closing bracket character, returning the name read and the
remaining characters; `none` when the bracket is never closed. -/
def splitClose : List Char → Char → Option (List Char × List Char)
  | [], _ => none
  | c :: rest, close =>
    if c = close then some ([], rest)
    else (splitClose rest close).map (fun p => (c :: p.1, p.2))

/-- Recognize the bracketed part of a placeholder (`{name}` or `(name)`)
at the head of the character list. -/
def splitBracket : List Char → Option (Char × List Char × List Char)
  | '{' :: rest => (splitClose rest '}').map (fun p => ('{', p.1, p.2))
  | '(' :: rest => (splitClose rest ')').map (fun p => ('(', p.1, p.2))
  | _ => none

/-- The closing bracket matching an opening one. -/
def closeOf (op : Char) : Char := if op = '{' then '}' else ')'

/-- Modelled from the spec: one pass of placeholder substitution over a
character list.  The fuel argument only bounds recursion depth; every step
consumes at least one character, so `fuel = length` never runs out. -/
def substCharsF (substitutions : ConfigDict) : Nat → List Char → List Char
  | 0, cs => cs
  | _ + 1, [] => []
  | fuel + 1, c :: cs =>
    if c = '\\' then
      match cs with
      | '$' :: cs2 =>
        match splitBracket cs2 with
        | some (op, nm, rest) =>
          '$' :: op :: (nm ++ closeOf op :: substCharsF substitutions fuel rest)
        | none => '$' :: substCharsF substitutions fuel cs2
      | _ => c :: substCharsF substitutions fuel cs
    else if c = '$' then
      match splitBracket cs with
      | some (op, nm, rest) =>
        match lookupA substitutions (String.mk nm) with
        | some v => v.data ++ substCharsF substitutions fuel rest
        | none =>
          '$' :: op :: (nm ++ closeOf op :: substCharsF substitutions fuel rest)
      | none => c :: substCharsF substitutions fuel cs
    else c :: substCharsF substitutions fuel cs

/-- Modelled from the spec: substitute `${name}` / `$(name)` placeholders in
one string (`substitute_config_variable` for a scalar). -/
def substituteString (s : String) (substitutions : ConfigDict) : String :=
  String.mk (substCharsF substitutions s.data.length s.data)

/-- Modelled from the spec: `substitute_all_config_variables` on a flat
string-valued mapping — substitute every value, keep every key. -/
def substituteAllConfigVariables (config : ConfigDict)
    (substitutions : ConfigDict) : ConfigDict :=
  config.map (fun p => (p.1, substituteString p.2 substitutions))

/-- A string free of `$` and `\` contains no placeholder and no escape,
so substitution leaves it unchanged. -/
def placeholderFree (s : String) : Bool :=
  s.data.all (fun c => !(c == '$') && !(c == '\\'))

/-! ### Data model -/

/-- Error kinds raised by the context layer.  `datasourceInitializationError`
is `ge_exceptions.DatasourceInitializationError` (carrying the datasource name
and the underlying message), `valueError` is Python's `ValueError`, and
`invalidTopLevelConfigKeyError` is
`ge_exceptions.InvalidTopLevelConfigKeyError`. -/
inductive GEError : Type
  | datasourceInitializationError (name msg : String)
  | valueError (msg : String)
  | invalidTopLevelConfigKeyError (msg : String)
deriving DecidableEq

/-- A live datasource object, as produced by the dynamic class loader: it
retains its name and the (substituted) config it was constructed from. -/
structure Datasource : Type where
  name : String
  config : ConfigDict
deriving DecidableEq

deriving instance DecidableEq for Except

/-- A store's declarative config: scalar fields plus the optional
`store_backend` sub-config that `_build_store_from_config` conditionally
mutates.  Python's boolean `True` inserted into the backend dict is modelled
as the string literal `"True"`. -/
structure StoreConfig : Type where
  fields : ConfigDict
  storeBackend : Option ConfigDict
deriving DecidableEq

/-- The mutable state of an `AbstractDataContext` instance, restricted to the
attributes the verified operations read or write.  The substituted project
config fields (`project_config_with_variables_substituted.*`) are carried
directly: `projectStores` is its `stores` mapping, the five role-pointer
names are its `*_store_name` attributes (`none` models the attribute being
absent, which Python surfaces as `AttributeError`), and `dataContextId` is
`anonymous_usage_statistics.data_context_id`.  `defaultCheckpointsExist` /
`defaultProfilersExist` model the filesystem probes
`CheckpointStore.default_checkpoints_exist` / `_default_profilers_exist`. -/
structure ContextState : Type where
  configVariablesCache : Option ConfigDict
  inMemoryInstanceId : Option String
  runtimeEnvironment : ConfigDict
  datasourceStoreData : List (String × ConfigDict)
  cachedDatasources : List (String × Datasource)
  builtStores : List (String × StoreConfig)
  projectStores : List (String × StoreConfig)
  expectationsStoreName : String
  validationsStoreName : String
  evaluationParameterStoreName : String
  checkpointStoreNameOpt : Option String
  profilerStoreNameOpt : Option String
  defaultCheckpointsExist : Bool
  defaultProfilersExist : Bool
  dataContextId : String
  rootDirectory : Option String
deriving DecidableEq

/-- The external world read during one call: the process environment
(`os.environ`), the current contents of the config-variables file (the file
itself lives outside the embedded state), and the dynamic datasource
constructor `instantiate_class_from_config` plus class loading, modelled as
an oracle.  The oracle returns `.error msg` when construction raises (the
message is `str(e)`), and `.ok none` when it returns a falsy object (which
the source converts into a `ClassInstantiationError`). -/
structure Env : Type where
  osEnviron : ConfigDict
  configFileContents : ConfigDict
  buildDatasourceOracle : String → ConfigDict → Except String (Option Datasource)

/-! ### Config variables and substitutions -/

/-- Source constant `AbstractDataContext.FALSEY_STRINGS`. -/
def FALSEY_STRINGS : List String := ["FALSE", "false", "False", "f", "F", "0"]

/-- The `config_variables` property: loads the config-variables file into the
`_config_variables` cache when the cache is falsy (`None` or empty), then
returns the cache.  In the branch where the cache is already truthy the
written value equals the existing one, so the state update is the identity. -/
def configVariables (env : Env) (st : ContextState) :
    ConfigDict × ContextState :=
  let value : ConfigDict :=
    match st.configVariablesCache with
    | some cv => if cv.isEmpty then env.configFileContents else cv
    | none => env.configFileContents
  (value, { st with configVariablesCache := some value })

/-- Method `_determine_substitutions`: substitute the config variables against the
process environment, then overlay (low to high) the substituted config
variables, the process environment, and the runtime environment, mirroring
`{**substituted_config_variables, **dict(os.environ), **self.runtime_environment}`.
The overriding maps are put in front of the association list so that lookup
gives the highest-precedence binding. -/
def determineSubstitutions (env : Env) (st : ContextState) :
    ConfigDict × ContextState :=
  let r := configVariables env st
  let substitutedConfigVariables :=
    substituteAllConfigVariables r.1 env.osEnviron
  (r.2.runtimeEnvironment ++ env.osEnviron ++ substitutedConfigVariables, r.2)

/-- The `instance_id` property: prefer the `instance_id` config variable;
otherwise return the in-memory fallback when already generated; otherwise
record and return a freshly generated UUID (`str(uuid.uuid4())`, supplied
here as the oracle argument `freshUuid`). -/
def instanceId (env : Env) (st : ContextState) (freshUuid : String) :
    String × ContextState :=
  let r := configVariables env st
  match lookupA r.1 "instance_id" with
  | some v => (v, r.2)
  | none =>
    match r.2.inMemoryInstanceId with
    | some m => (m, r.2)
    | none => (freshUuid, { r.2 with inMemoryInstanceId := some freshUuid })

/-! ### Usage-statistics opt-out -/

/-- Method `_check_global_usage_statistics_opt_out`.  The environment branch returns
`True` when `GE_USAGE_STATS` is set to a truthy (non-empty) string that is one
of `FALSEY_STRINGS`; any other set value only logs a warning and falls through
to the scan of the global config files.  That scan (`configparser` reads of
`anonymous_usage_statistics.enabled` over `GLOBAL_CONFIG_PATHS`) is external
file I/O, modelled by `globalConfigEnabled`: one entry per global config path,
`some b` for a successful `getboolean` and `none` when the read raises (which
the source swallows). -/
def checkGlobalUsageStatisticsOptOut (osEnviron : ConfigDict)
    (globalConfigEnabled : List (Option Bool)) : Bool :=
  match lookupA osEnviron "GE_USAGE_STATS" with
  | some v =>
    if !(v == "") && FALSEY_STRINGS.contains v then true
    else globalConfigEnabled.any (fun r => r == some false)
  | none => globalConfigEnabled.any (fun r => r == some false)

/-! ### Store registry -/

/-- Modelled from the spec: `PasswordMasker` recognizes credential-shaped
fields by key. -/
def isCredentialKey (k : String) : Bool :=
  ["password", "credentials"].contains k

/-- Modelled from the spec: the sanitizer's fixed placeholder. -/
def MASKED_VALUE : String := "***"

/-- Modelled from the spec: `PasswordMasker.sanitize_config` on a flat
mapping — replace the value of every credential-shaped field with the fixed
placeholder, without mutating the input. -/
def sanitizeDict (d : ConfigDict) : ConfigDict :=
  d.map (fun p => (p.1, if isCredentialKey p.1 then MASKED_VALUE else p.2))

/-- Modelled from the spec: `PasswordMasker.sanitize_config` on a store
config, masking both the scalar fields and the backend sub-config. -/
def sanitizeStoreConfig (c : StoreConfig) : StoreConfig :=
  { fields := sanitizeDict c.fields,
    storeBackend := c.storeBackend.map sanitizeDict }

/-- Method `list_stores`: for every configured store, deep-copy its config (value
semantics here), add the `name` key, pass the copy through the password
masker, and collect the result.  The context state is returned unchanged:
the deep copy is what keeps the stored configuration unmutated. -/
def listStores (st : ContextState) : List StoreConfig × ContextState :=
  (st.projectStores.map (fun p =>
    sanitizeStoreConfig
      { p.2 with fields := setA p.2.fields "name" p.1 }), st)

/-- Source constant `DataContextConfigDefaults.DEFAULT_CHECKPOINT_STORE_NAME`. -/
def DEFAULT_CHECKPOINT_STORE_NAME : String := "checkpoint_store"

/-- Source constant `DataContextConfigDefaults.DEFAULT_PROFILER_STORE_NAME`. -/
def DEFAULT_PROFILER_STORE_NAME : String := "profiler_store"

/-- The `checkpoint_store_name` property: the configured role pointer when
present; otherwise fall back to the default name when the conventional
`checkpoints` directory exists; otherwise raise
`InvalidTopLevelConfigKeyError` (remediation text abridged). -/
def checkpointStoreName (st : ContextState) : Except GEError String :=
  match st.checkpointStoreNameOpt with
  | some n => .ok n
  | none =>
    if st.defaultCheckpointsExist then .ok DEFAULT_CHECKPOINT_STORE_NAME
    else .error (.invalidTopLevelConfigKeyError
      "checkpoint_store_name field with no checkpoints directory")

/-- The `profiler_store_name` property, analogous to `checkpointStoreName`. -/
def profilerStoreName (st : ContextState) : Except GEError String :=
  match st.profilerStoreNameOpt with
  | some n => .ok n
  | none =>
    if st.defaultProfilersExist then .ok DEFAULT_PROFILER_STORE_NAME
    else .error (.invalidTopLevelConfigKeyError
      "profiler_store_name field with no profilers directory")

/-- The `active_store_names` list built by `list_active_stores`: the three
always-present role pointers, then the checkpoint and profiler role pointers,
each appended only when its lookup does not raise (the raise is caught and
the role is omitted with an informational log). -/
def activeStoreNames (st : ContextState) : List String :=
  [st.expectationsStoreName, st.validationsStoreName,
    st.evaluationParameterStoreName]
  ++ (match checkpointStoreName st with | .ok n => [n] | .error _ => [])
  ++ (match profilerStoreName st with | .ok n => [n] | .error _ => [])

/-- The `name` entry of a masked store snapshot (`store["name"]`). -/
def storeEntryName (e : StoreConfig) : Option String :=
  lookupA e.fields "name"

/-- Method `list_active_stores`: the entries of `list_stores` whose `name` is one of
the active store names. -/
def listActiveStores (st : ContextState) : List StoreConfig :=
  (listStores st).1.filter (fun e =>
    match storeEntryName e with
    | some n => (activeStoreNames st).contains n
    | none => false)

/-- The list-comprehension `[store["name"] for store in self.list_active_stores()]`
used by `_build_store_from_config`. -/
def builtActiveNames (st : ContextState) : List String :=
  (listActiveStores st).filterMap storeEntryName

/-- Python truthiness of `store_config.get("store_backend")`: present and
non-empty. -/
def backendTruthy (c : StoreConfig) : Bool :=
  match c.storeBackend with
  | some d => !d.isEmpty
  | none => false

/-- The first in-place mutation of `_build_store_from_config`: the
expectations-role store with a truthy backend sub-config receives
`manually_initialize_store_backend_id = data_context_id`. -/
def injectExpectationsId (st : ContextState) (storeName : String)
    (c : StoreConfig) : StoreConfig :=
  if storeName == st.expectationsStoreName && backendTruthy c then
    { c with
      storeBackend := c.storeBackend.map (fun b =>
        setA b "manually_initialize_store_backend_id" st.dataContextId) }
  else c

/-- The second in-place mutation of `_build_store_from_config`: a store whose
name is not active and whose backend sub-config is present (`is not None`)
receives `suppress_store_backend_id = True`. -/
def injectSuppress (st : ContextState) (storeName : String)
    (c : StoreConfig) : StoreConfig :=
  if !((builtActiveNames st).contains storeName)
      && c.storeBackend.isSome then
    { c with
      storeBackend := c.storeBackend.map (fun b =>
        setA b "suppress_store_backend_id" "True") }
  else c

/-- Method `_build_store_from_config`.  The source updates
`store_config["store_backend"]` **in place** (`dict.update`), so the first
component of the result is the value the caller's `store_config` object holds
after the call; no copy is taken.  The two conditional injections are applied
in source order; the construction of the live store by the external
`build_store_from_config` factory is recorded by caching the final config in
`_stores` (`builtStores`). -/
def buildStoreFromConfig (st : ContextState) (storeName : String)
    (storeConfig : StoreConfig) : StoreConfig × ContextState :=
  let cfg2 := injectSuppress st storeName
    (injectExpectationsId st storeName storeConfig)
  (cfg2, { st with builtStores := setA st.builtStores storeName cfg2 })

/-! ### Datasource registry -/

/-- Method `_build_datasource_from_config`: inject the name (and, for the new-style
classes, the context root directory) into the config, then construct through
the dynamic loader oracle; a falsy result raises `ClassInstantiationError`.
A missing `class_name` raises Python's `KeyError` at the membership test. -/
def buildDatasourceFromConfig (env : Env) (st : ContextState) (name : String)
    (config : ConfigDict) : Except String Datasource :=
  let config1 := setA config "name" name
  match lookupA config1 "class_name" with
  | none => .error "KeyError: class_name"
  | some cn =>
    let config2 :=
      if cn = "BaseDatasource" ∨ cn = "Datasource" then
        setA config1 "data_context_root_directory" (st.rootDirectory.getD "")
      else config1
    match env.buildDatasourceOracle name config2 with
    | .error e => .error e
    | .ok none => .error ("ClassInstantiationError: " ++ cn)
    | .ok (some ds) => .ok ds

/-- Method `_instantiate_datasource_from_config`: wrap any construction failure into
a `DatasourceInitializationError` carrying the datasource name and the
underlying message. -/
def instantiateDatasourceFromConfig (env : Env) (st : ContextState)
    (name : String) (config : ConfigDict) : Except GEError Datasource :=
  match buildDatasourceFromConfig env st name config with
  | .ok ds => .ok ds
  | .error msg => .error (.datasourceInitializationError name msg)

/-- Method `get_datasource`: a cache hit short-circuits; on a miss, read the
persisted config (absent gives an absent result, per the spec contract
`get(name) -> Optional<Datasource>` for the external `DatasourceStore`),
substitute variables, instantiate, and populate the cache.  Instantiation
errors propagate with the state as mutated so far. -/
def getDatasource (env : Env) (st : ContextState) (datasourceName : String) :
    Except GEError (Option Datasource) × ContextState :=
  match lookupA st.cachedDatasources datasourceName with
  | some ds => (.ok (some ds), st)
  | none =>
    match lookupA st.datasourceStoreData datasourceName with
    | none => (.ok none, st)
    | some datasourceConfig =>
      let r := determineSubstitutions env st
      let config := substituteAllConfigVariables datasourceConfig r.1
      match instantiateDatasourceFromConfig env r.2 datasourceName config with
      | .error e => (.error e, r.2)
      | .ok ds =>
        (.ok (some ds),
          { r.2 with
            cachedDatasources := setA r.2.cachedDatasources datasourceName ds })

/-- Method `list_datasources`: one substitution map for the whole call, then for
every persisted key: read the config, add the `name` key, substitute, mask.
The `none` branch of the inner lookup is unreachable (the keys come from the
store itself). -/
def listDatasources (env : Env) (st : ContextState) :
    List ConfigDict × ContextState :=
  let r := determineSubstitutions env st
  ((keysA r.2.datasourceStoreData).map (fun name =>
    match lookupA r.2.datasourceStoreData name with
    | some cfg =>
      sanitizeDict
        (substituteAllConfigVariables (setA cfg "name" name) r.1)
    | none => []), r.2)

/-- Method `delete_datasource`: resolve through `get_datasource` first; an absent
result raises `ValueError` ("not found"); a present result removes the
persisted config and evicts the cache entry. -/
def deleteDatasource (env : Env) (st : ContextState)
    (datasourceName : String) : Except GEError Unit × ContextState :=
  match getDatasource env st datasourceName with
  | (.error e, st1) => (.error e, st1)
  | (.ok none, st1) =>
    (.error (.valueError ("Datasource " ++ datasourceName ++ " not found")),
      st1)
  | (.ok (some _), st1) =>
    (.ok (),
      { st1 with
        datasourceStoreData := eraseA st1.datasourceStoreData datasourceName,
        cachedDatasources := eraseA st1.cachedDatasources datasourceName })

/-- One iteration of the `_init_datasources` loop: `get_datasource`, cache the
result, and catch `DatasourceInitializationError` (log a warning and
continue).  An absent result stores nothing (unreachable while iterating the
store's own keys). -/
def initDatasourcesStep (env : Env) (st : ContextState) (name : String) :
    ContextState :=
  match getDatasource env st name with
  | (.ok (some ds), st1) =>
    { st1 with cachedDatasources := setA st1.cachedDatasources name ds }
  | (.ok none, st1) => st1
  | (.error _, st1) => st1

/-- Method `_init_datasources`: eagerly initialize every persisted datasource at
construction time, per-datasource failures caught.  Total by construction:
no failure of an individual datasource can fail the loop. -/
def initDatasources (env : Env) (st : ContextState) : ContextState :=
  (keysA st.datasourceStoreData).foldl (initDatasourcesStep env) st

/-- Method `_instantiate_datasource_from_config_and_update_project_config`: persist
the config first (`datasourceConfigSchema.load`/`dump` round-trip losslessly
per the spec's serializer contract, so they are the identity here), then,
when initializing, substitute and instantiate; on a
`DatasourceInitializationError` delete the just-persisted config and re-raise.
The in-memory datasource cache is written only on success. -/
def instantiateDatasourceFromConfigAndUpdateProjectConfig (env : Env)
    (st : ContextState) (name : String) (config : ConfigDict)
    (shouldInit : Bool) : Except GEError (Option Datasource) × ContextState :=
  let st1 :=
    { st with datasourceStoreData := setA st.datasourceStoreData name config }
  let r := determineSubstitutions env st1
  let substitutedConfig := substituteAllConfigVariables config r.1
  if shouldInit then
    match instantiateDatasourceFromConfig env r.2 name substitutedConfig with
    | .ok ds =>
      (.ok (some ds),
        { r.2 with cachedDatasources := setA r.2.cachedDatasources name ds })
    | .error e =>
      (.error e,
        { r.2 with datasourceStoreData := eraseA r.2.datasourceStoreData name })
  else (.ok none, r.2)

/-- Method `add_datasource`: the class loading and the optional
`build_configuration` hook are external (`load_class`); with no hook the
kwargs are the config, and the work is delegated to
`_instantiate_datasource_from_config_and_update_project_config`. -/
def addDatasource (env : Env) (st : ContextState) (name : String)
    (kwargs : ConfigDict) (shouldInit : Bool) :
    Except GEError (Option Datasource) × ContextState :=
  instantiateDatasourceFromConfigAndUpdateProjectConfig env st name kwargs
    shouldInit

/-! ### Concrete inputs used by witnesses and counterexamples -/

/-- A freshly-constructed context with empty registries and the default
role-pointer names. -/
def baseState : ContextState :=
  { configVariablesCache := none
    inMemoryInstanceId := none
    runtimeEnvironment := []
    datasourceStoreData := []
    cachedDatasources := []
    builtStores := []
    projectStores := []
    expectationsStoreName := "expectations_store"
    validationsStoreName := "validations_store"
    evaluationParameterStoreName := "evaluation_parameter_store"
    checkpointStoreNameOpt := none
    profilerStoreNameOpt := none
    defaultCheckpointsExist := false
    defaultProfilersExist := false
    dataContextId := "00000000-0000-0000-0000-000000000000"
    rootDirectory := none }

/-- An empty external world whose datasource constructor always fails. -/
def baseEnv : Env :=
  { osEnviron := []
    configFileContents := []
    buildDatasourceOracle := fun _ _ => .error "unavailable" }

/-- A context whose runtime override map and config-variables cache both bind
`db_pw`. -/
def precSt : ContextState :=
  { baseState with
    runtimeEnvironment := [("db_pw", "rtv")]
    configVariablesCache := some [("db_pw", "filev")] }

/-- A process environment that also binds `db_pw`. -/
def precEnv : Env := { baseEnv with osEnviron := [("db_pw", "envv")] }

/-- A first call's world: the config-variables file binds `k` to `"1"`. -/
def staleEnv1 : Env := { baseEnv with configFileContents := [("k", "1")] }

/-- A later call's world: the file now binds `k` to `"2"` and the process
environment changed, but neither binds `k` at higher precedence. -/
def staleEnv2 : Env :=
  { baseEnv with
    configFileContents := [("k", "2")]
    osEnviron := [("PATH", "/usr/bin")] }

/-- A store config with a backend sub-config, passed to the store builder. -/
def mutCfg : StoreConfig :=
  { fields := [("class_name", "ExpectationsStore")]
    storeBackend := some [("class_name", "TupleFilesystemStoreBackend")] }

/-- A datasource instance left over from a previous successful
instantiation of `x`. -/
def oldDs : Datasource :=
  { name := "x", config := [("class_name", "PandasDatasource")] }

/-- A context that already has datasource `x` persisted and cached. -/
def staleSt : ContextState :=
  { baseState with
    datasourceStoreData := [("x", [("class_name", "PandasDatasource")])]
    cachedDatasources := [("x", oldDs)] }

/-- A world whose datasource constructor always raises. -/
def failEnv : Env :=
  { baseEnv with buildDatasourceOracle := fun _ _ => .error "boom" }

/-- A datasource config whose class cannot be instantiated. -/
def badCfg : ConfigDict := [("class_name", "Broken")]

/-- A world whose constructor fails exactly for the datasource named
`broken`. -/
def mixedEnv : Env :=
  { baseEnv with
    buildDatasourceOracle := fun n _ =>
      if n == "broken" then .error "boom"
      else .ok (some { name := n, config := [] }) }

/-- A context with one broken and one working persisted datasource. -/
def mixedSt : ContextState :=
  { baseState with
    datasourceStoreData :=
      [("broken", [("class_name", "X")]),
       ("good", [("class_name", "PandasDatasource")])] }

end GE2Proof

namespace GE2Proof

theorem lookupA_nil {α : Type} (k : String) :
    lookupA ([] : List (String × α)) k = none := rfl

theorem lookupA_cons {α : Type} (p : String × α) (rest : List (String × α))
    (k : String) :
    lookupA (p :: rest) k = if p.1 = k then some p.2 else lookupA rest k := by
  by_cases hp : p.1 = k
  · simp only [lookupA, if_pos hp]
    rw [List.find?_cons_of_pos _ (by simpa using hp)]
    rfl
  · simp only [lookupA, if_neg hp]
    rw [List.find?_cons_of_neg _ (by simpa using hp)]

theorem eraseA_cons {α : Type} (p : String × α) (rest : List (String × α))
    (k : String) :
    eraseA (p :: rest) k =
      if p.1 = k then eraseA rest k else p :: eraseA rest k := by
  by_cases hp : p.1 = k
  · simp [eraseA, List.filter_cons, hp]
  · simp [eraseA, List.filter_cons, hp]

theorem lookupA_set_self {α : Type} (d : List (String × α)) (k : String)
    (v : α) : lookupA (setA d k v) k = some v := by
  show lookupA ((k, v) :: eraseA d k) k = some v
  rw [lookupA_cons, if_pos rfl]

theorem lookupA_erase_self {α : Type} (d : List (String × α)) (k : String) :
    lookupA (eraseA d k) k = none := by
  induction d with
  | nil => rfl
  | cons p rest ih =>
    rw [eraseA_cons]
    by_cases hp : p.1 = k
    · rw [if_pos hp]; exact ih
    · rw [if_neg hp, lookupA_cons, if_neg hp]; exact ih

theorem lookupA_erase_ne {α : Type} (d : List (String × α)) (k k' : String)
    (h : k' ≠ k) : lookupA (eraseA d k) k' = lookupA d k' := by
  induction d with
  | nil => rfl
  | cons p rest ih =>
    rw [eraseA_cons, lookupA_cons]
    by_cases hp : p.1 = k
    · have hp' : p.1 ≠ k' := fun he => h (by rw [← he, hp])
      rw [if_pos hp, if_neg hp']
      exact ih
    · rw [if_neg hp, lookupA_cons]
      by_cases hp' : p.1 = k'
      · rw [if_pos hp', if_pos hp']
      · rw [if_neg hp', if_neg hp']
        exact ih

theorem lookupA_set_ne {α : Type} (d : List (String × α)) (k k' : String)
    (v : α) (h : k' ≠ k) : lookupA (setA d k v) k' = lookupA d k' := by
  show lookupA ((k, v) :: eraseA d k) k' = lookupA d k'
  rw [lookupA_cons, if_neg (fun he => h he.symm)]
  exact lookupA_erase_ne d k k' h

theorem lookupA_append {α : Type} (a b : List (String × α)) (k : String) :
    lookupA (a ++ b) k =
      (lookupA a k).orElse (fun _ => lookupA b k) := by
  induction a with
  | nil => rfl
  | cons p rest ih =>
    rw [List.cons_append, lookupA_cons, lookupA_cons]
    by_cases hp : p.1 = k
    · rw [if_pos hp, if_pos hp]; rfl
    · rw [if_neg hp, if_neg hp]; exact ih

theorem lookupA_map_values {α β : Type} (f : String → α → β)
    (d : List (String × α)) (k : String) :
    lookupA (d.map (fun p => (p.1, f p.1 p.2))) k =
      (lookupA d k).map (f k) := by
  induction d with
  | nil => rfl
  | cons p rest ih =>
    rw [List.map_cons, lookupA_cons, lookupA_cons]
    by_cases hp : p.1 = k
    · rw [if_pos hp, if_pos hp]
      subst hp; rfl
    · rw [if_neg hp, if_neg hp]
      exact ih

theorem lookupA_isSome_iff_mem_keys {α : Type} (d : List (String × α))
    (k : String) : (lookupA d k).isSome = true ↔ k ∈ keysA d := by
  induction d with
  | nil => simp [lookupA, keysA]
  | cons p rest ih =>
    rw [lookupA_cons]
    by_cases hp : p.1 = k
    · rw [if_pos hp]
      simp [keysA, hp]
    · rw [if_neg hp]
      simp only [keysA, List.map_cons, List.mem_cons]
      rw [ih]
      constructor
      · intro h; exact Or.inr (by simpa [keysA] using h)
      · intro h
        rcases h with h | h
        · exact absurd h.symm hp
        · simpa [keysA] using h

theorem mem_keys_erase {α : Type} {d : List (String × α)} {k kk : String}
    (h : kk ∈ keysA (eraseA d k)) : kk ∈ keysA d ∧ kk ≠ k := by
  induction d with
  | nil => simp [keysA, eraseA] at h
  | cons p rest ih =>
    rw [eraseA_cons] at h
    by_cases hp : p.1 = k
    · rw [if_pos hp] at h
      rcases ih h with ⟨h1, h2⟩
      refine ⟨?_, h2⟩
      simp only [keysA, List.map_cons, List.mem_cons]
      exact Or.inr (by simpa [keysA] using h1)
    · rw [if_neg hp] at h
      simp only [keysA, List.map_cons, List.mem_cons] at h ⊢
      rcases h with h | h
      · subst h
        exact ⟨Or.inl rfl, hp⟩
      · rcases ih (by simpa [keysA] using h) with ⟨h1, h2⟩
        exact ⟨Or.inr (by simpa [keysA] using h1), h2⟩

theorem mem_keys_set {α : Type} {d : List (String × α)} {k kk : String}
    {v : α} (h : kk ∈ keysA (setA d k v)) : kk = k ∨ kk ∈ keysA d := by
  have h' : kk ∈ keysA ((k, v) :: eraseA d k) := h
  simp only [keysA, List.map_cons, List.mem_cons] at h'
  rcases h' with h' | h'
  · exact Or.inl h'
  · exact Or.inr (mem_keys_erase (d := d) (k := k) (by simpa [keysA] using h')).1

theorem eraseA_setA {α : Type} (d : List (String × α)) (k : String) (v : α) :
    eraseA (setA d k v) k = eraseA d k := by
  show eraseA ((k, v) :: eraseA d k) k = eraseA d k
  rw [eraseA_cons, if_pos rfl]
  induction d with
  | nil => rfl
  | cons p rest ih =>
    rw [eraseA_cons]
    by_cases hp : p.1 = k
    · rw [if_pos hp]; exact ih
    · rw [if_neg hp, eraseA_cons, if_neg hp]
      rw [ih]

theorem substCharsF_placeholderFree (substitutions : ConfigDict) :
    ∀ (fuel : Nat) (cs : List Char),
      (∀ c ∈ cs, ¬c = '$' ∧ ¬c = '\\') →
      substCharsF substitutions fuel cs = cs := by
  intro fuel
  induction fuel with
  | zero => intro cs _; rfl
  | succ n ih =>
    intro cs h
    cases cs with
    | nil => rfl
    | cons c rest =>
      have hc := h c (by simp)
      have hrest : ∀ c ∈ rest, ¬c = '$' ∧ ¬c = '\\' := by
        intro c' hc'; exact h c' (by simp [hc'])
      simp only [substCharsF]
      rw [if_neg hc.2, if_neg hc.1]
      rw [ih rest hrest]

theorem substituteString_placeholderFree (s : String)
    (substitutions : ConfigDict) (h : placeholderFree s = true) :
    substituteString s substitutions = s := by
  have h' : ∀ c ∈ s.data, ¬c = '$' ∧ ¬c = '\\' := by
    intro c hc
    have := (List.all_eq_true.mp h) c hc
    constructor
    · intro he; subst he; simp at this
    · intro he; subst he; simp at this
  unfold substituteString
  rw [substCharsF_placeholderFree substitutions s.data.length s.data h']

theorem lookupA_substituteAll (config substitutions : ConfigDict)
    (k : String) :
    lookupA (substituteAllConfigVariables config substitutions) k =
      (lookupA config k).map (fun v => substituteString v substitutions) :=
  lookupA_map_values (fun _ v => substituteString v substitutions) config k

theorem lookupA_sanitizeDict (d : ConfigDict) (k : String) :
    lookupA (sanitizeDict d) k =
      (lookupA d k).map
        (fun v => if isCredentialKey k then MASKED_VALUE else v) :=
  lookupA_map_values
    (fun key v => if isCredentialKey key then MASKED_VALUE else v) d k

theorem configVariables_value_stable (env : Env) (st st' : ContextState)
    (h : st'.configVariablesCache = some ((configVariables env st).1)) :
    (configVariables env st').1 = (configVariables env st).1 := by
  show (match st'.configVariablesCache with
    | some cv => if cv.isEmpty then env.configFileContents else cv
    | none => env.configFileContents) = (configVariables env st).1
  rw [h]
  show (if ((configVariables env st).1).isEmpty = true
      then env.configFileContents else (configVariables env st).1)
    = (configVariables env st).1
  by_cases he : ((configVariables env st).1).isEmpty = true
  · rw [if_pos he]
    show env.configFileContents =
      (match st.configVariablesCache with
        | some cv => if cv.isEmpty then env.configFileContents else cv
        | none => env.configFileContents)
    cases hc : st.configVariablesCache with
    | none => rfl
    | some c =>
      show env.configFileContents =
        (if c.isEmpty = true then env.configFileContents else c)
      by_cases hce : c.isEmpty = true
      · rw [if_pos hce]
      · exfalso
        have hcv : (configVariables env st).1 = c := by
          show (match st.configVariablesCache with
            | some cv => if cv.isEmpty then env.configFileContents else cv
            | none => env.configFileContents) = c
          rw [hc]
          show (if c.isEmpty = true then env.configFileContents else c) = c
          rw [if_neg hce]
        rw [hcv] at he
        exact hce he
  · rw [if_neg he]

theorem configVariables_state_stable (env : Env) (st st' : ContextState)
    (h : st'.configVariablesCache = some ((configVariables env st).1)) :
    (configVariables env st').2 = st' := by
  show { st' with configVariablesCache := some ((configVariables env st').1) }
      = st'
  rw [configVariables_value_stable env st st' h, ← h]

theorem lookupA_determineSubstitutions (env : Env) (st : ContextState)
    (k : String) :
    lookupA (determineSubstitutions env st).1 k =
      ((lookupA st.runtimeEnvironment k).orElse (fun _ =>
        (lookupA env.osEnviron k).orElse (fun _ =>
          lookupA
            (substituteAllConfigVariables (configVariables env st).1
              env.osEnviron) k))) := by
  have hd : (determineSubstitutions env st).1 =
      st.runtimeEnvironment ++
        (env.osEnviron ++
          substituteAllConfigVariables (configVariables env st).1
            env.osEnviron) := by
    show st.runtimeEnvironment ++ env.osEnviron ++
        substituteAllConfigVariables (configVariables env st).1 env.osEnviron
      = _
    rw [List.append_assoc]
  rw [hd, lookupA_append]
  cases hr : lookupA st.runtimeEnvironment k with
  | some v => rfl
  | none =>
    show lookupA (env.osEnviron ++ _) k = _
    rw [lookupA_append]
    rfl

/-- C2: `_determine_substitutions` merges, in precedence order low to high,
the config variables (themselves first substituted against the process
environment), the process environment, and the runtime override map; in
particular a key bound in all three resolves to the runtime override map's
value. -/
theorem determine_substitutions_precedence (env : Env) (st : ContextState)
    (k : String) :
    (lookupA (determineSubstitutions env st).1 k =
      ((lookupA st.runtimeEnvironment k).orElse (fun _ =>
        (lookupA env.osEnviron k).orElse (fun _ =>
          (lookupA (configVariables env st).1 k).map
            (fun v => substituteString v env.osEnviron))))) ∧
    (∀ vf ve vr, lookupA (configVariables env st).1 k = some vf →
      lookupA env.osEnviron k = some ve →
      lookupA st.runtimeEnvironment k = some vr →
      lookupA (determineSubstitutions env st).1 k = some vr) := by
  have hmain : lookupA (determineSubstitutions env st).1 k =
      ((lookupA st.runtimeEnvironment k).orElse (fun _ =>
        (lookupA env.osEnviron k).orElse (fun _ =>
          (lookupA (configVariables env st).1 k).map
            (fun v => substituteString v env.osEnviron)))) := by
    rw [lookupA_determineSubstitutions env st k, lookupA_substituteAll]
  refine ⟨hmain, ?_⟩
  intro vf ve vr _ _ h3
  rw [hmain, h3]
  rfl

/-- C2 witness: with `db_pw` bound to three distinct values in the
config-variables cache, the process environment, and the runtime override
map, resolution picks the runtime value. -/
theorem determine_substitutions_precedence_witness :
    lookupA (determineSubstitutions precEnv precSt).1 "db_pw" = some "rtv" :=
  (determine_substitutions_precedence precEnv precSt "db_pw").2
    "filev" "envv" "rtv" (by decide) (by decide) (by decide)

/-- C6 counterexample: with `GE_USAGE_STATS` set to `"yes"` (not a falsey
literal) and a global config file that disables statistics, the check returns
`true`, so the claim's "returns true exactly if the value is one of the
falsey literals" is false as stated. -/
theorem check_usage_stats_opt_out_counterexample :
    checkGlobalUsageStatisticsOptOut [("GE_USAGE_STATS", "yes")] [some false]
        = true
      ∧ FALSEY_STRINGS.contains "yes" = false := by decide

/-- C6 amended: when `GE_USAGE_STATS` is set (non-empty), a falsey-literal
value returns `true` immediately; any other value logs a warning and falls
through to the global-config-file scan, which may still report opt-out; when
no global config file disables statistics, such a value is treated as "not
opted out".  The check is total (never raises). -/
theorem check_usage_stats_opt_out_env_parsing (osEnviron : ConfigDict)
    (globalConfigEnabled : List (Option Bool)) (v : String)
    (hv : lookupA osEnviron "GE_USAGE_STATS" = some v) (hne : v ≠ "") :
    (v ∈ FALSEY_STRINGS →
      checkGlobalUsageStatisticsOptOut osEnviron globalConfigEnabled = true) ∧
    (v ∉ FALSEY_STRINGS →
      checkGlobalUsageStatisticsOptOut osEnviron globalConfigEnabled =
        globalConfigEnabled.any (fun r => r == some false)) ∧
    (v ∉ FALSEY_STRINGS → (∀ r ∈ globalConfigEnabled, r ≠ some false) →
      checkGlobalUsageStatisticsOptOut osEnviron globalConfigEnabled
        = false) := by
  have hbne : (v == "") = false := by
    simp only [beq_eq_false_iff_ne, ne_eq]
    exact hne
  have hck : checkGlobalUsageStatisticsOptOut osEnviron globalConfigEnabled =
      if !(v == "") && FALSEY_STRINGS.contains v then true
      else globalConfigEnabled.any (fun r => r == some false) := by
    show (match lookupA osEnviron "GE_USAGE_STATS" with
      | some v =>
        if !(v == "") && FALSEY_STRINGS.contains v then true
        else globalConfigEnabled.any (fun r => r == some false)
      | none => globalConfigEnabled.any (fun r => r == some false)) = _
    rw [hv]
  refine ⟨?_, ?_, ?_⟩
  · intro hmem
    have hc : FALSEY_STRINGS.contains v = true := by
      exact List.elem_eq_true_of_mem hmem
    rw [hck, hbne, hc]
    rfl
  · intro hmem
    have hc : FALSEY_STRINGS.contains v = false := by
      rcases hcc : FALSEY_STRINGS.contains v with _ | _
      · rfl
      · exact absurd (List.mem_of_elem_eq_true hcc) hmem
    rw [hck, hbne, hc]
    rfl
  · intro hmem hall
    have hc : FALSEY_STRINGS.contains v = false := by
      rcases hcc : FALSEY_STRINGS.contains v with _ | _
      · rfl
      · exact absurd (List.mem_of_elem_eq_true hcc) hmem
    have hany : globalConfigEnabled.any (fun r => r == some false) = false := by
      rcases haa : globalConfigEnabled.any (fun r => r == some false)
        with _ | _
      · rfl
      · exfalso
        rcases List.any_eq_true.mp haa with ⟨r, hrmem, hrq⟩
        exact hall r hrmem (by simpa using hrq)
    rw [hck, hbne, hc, hany]
    rfl

/-- C6 witness: `GE_USAGE_STATS="F"` with no readable global config opts
out. -/
theorem check_usage_stats_opt_out_env_parsing_witness :
    checkGlobalUsageStatisticsOptOut [("GE_USAGE_STATS", "F")] [none, none]
      = true :=
  (check_usage_stats_opt_out_env_parsing [("GE_USAGE_STATS", "F")]
    [none, none] "F" (by decide) (by decide)).1 (by decide)

/-- C9 counterexample: the first call caches the config-variables file
contents (`k = "1"`); a later call whose file contents changed (`k = "2"`)
still resolves `k` from the cached copy, so the claim's "each call's result
reflects the sources as read at that call, with no component reused" is
false. -/
theorem determine_substitutions_stale_cache_counterexample :
    lookupA
        (determineSubstitutions staleEnv2
          (determineSubstitutions staleEnv1 baseState).2).1 "k" = some "1"
      ∧ lookupA staleEnv2.configFileContents "k" = some "2" := by decide

/-- C9 amended: the process environment and the runtime override map are read
fresh on every `_determine_substitutions` call, but the config-variables file
contents are loaded once into the `_config_variables` cache and reused while
that cache is non-empty; only when the cache is `None` or empty are the file
contents (re)loaded. -/
theorem determine_substitutions_fresh_env_cached_file (env : Env)
    (st : ContextState) :
    (∀ cv, st.configVariablesCache = some cv → cv.isEmpty = false →
      (determineSubstitutions env st).2 = st ∧
      ∀ k, lookupA (determineSubstitutions env st).1 k =
        ((lookupA st.runtimeEnvironment k).orElse (fun _ =>
          (lookupA env.osEnviron k).orElse (fun _ =>
            lookupA (substituteAllConfigVariables cv env.osEnviron) k)))) ∧
    (st.configVariablesCache = none ∨ st.configVariablesCache = some [] →
      (determineSubstitutions env st).2 =
        { st with configVariablesCache := some env.configFileContents } ∧
      ∀ k, lookupA (determineSubstitutions env st).1 k =
        ((lookupA st.runtimeEnvironment k).orElse (fun _ =>
          (lookupA env.osEnviron k).orElse (fun _ =>
            lookupA
              (substituteAllConfigVariables env.configFileContents
                env.osEnviron) k)))) := by
  constructor
  · intro cv hc hne
    have hval : (configVariables env st).1 = cv := by
      show (match st.configVariablesCache with
        | some cv => if cv.isEmpty then env.configFileContents else cv
        | none => env.configFileContents) = cv
      rw [hc]
      show (if cv.isEmpty = true then env.configFileContents else cv) = cv
      rw [if_neg (by rw [hne]; exact Bool.false_ne_true)]
    have hsnd : (determineSubstitutions env st).2 = st := by
      show (configVariables env st).2 = st
      exact configVariables_state_stable env st st (by rw [hval]; exact hc)
    refine ⟨hsnd, ?_⟩
    intro k
    rw [lookupA_determineSubstitutions env st k, hval]
  · intro hc
    have hval : (configVariables env st).1 = env.configFileContents := by
      show (match st.configVariablesCache with
        | some cv => if cv.isEmpty then env.configFileContents else cv
        | none => env.configFileContents) = env.configFileContents
      rcases hc with hc | hc
      · rw [hc]
      · rw [hc]
        rfl
    have hsnd : (determineSubstitutions env st).2 =
        { st with configVariablesCache := some env.configFileContents } := by
      show { st with configVariablesCache := some ((configVariables env st).1) }
          = _
      rw [hval]
    refine ⟨hsnd, ?_⟩
    intro k
    rw [lookupA_determineSubstitutions env st k, hval]

/-- C9 witness: on a context whose cache already holds `db_pw = "filev"`,
the call leaves the state unchanged. -/
theorem determine_substitutions_fresh_env_cached_file_witness :
    (determineSubstitutions precEnv precSt).2 = precSt :=
  (((determine_substitutions_fresh_env_cached_file precEnv precSt).1
    [("db_pw", "filev")] (by decide) (by decide))).1

/-- C10: when the config variables carry no `instance_id`, the first read of
`instance_id` returns the freshly generated UUID and records it in the
in-memory fallback, and a subsequent read (with a fresh UUID oracle value)
still returns the first UUID; when the config variables do carry an
`instance_id`, every read returns it unchanged. -/
theorem instance_id_spec (env : Env) (st : ContextState) (u u' : String) :
    (∀ v, lookupA (configVariables env st).1 "instance_id" = some v →
      (instanceId env st u).1 = v ∧
      (instanceId env (instanceId env st u).2 u').1 = v) ∧
    (lookupA (configVariables env st).1 "instance_id" = none →
      st.inMemoryInstanceId = none →
      (instanceId env st u).1 = u ∧
      ((instanceId env st u).2).inMemoryInstanceId = some u ∧
      (instanceId env (instanceId env st u).2 u').1 = u) := by
  have hcstab : ∀ st', st'.configVariablesCache
        = some ((configVariables env st).1) →
      configVariables env st' = ((configVariables env st).1, st') := by
    intro st' h
    have h1 := configVariables_value_stable env st st' h
    have h2 := configVariables_state_stable env st st' h
    calc configVariables env st'
        = ((configVariables env st').1, (configVariables env st').2) := rfl
      _ = ((configVariables env st).1, st') := by rw [h1, h2]
  constructor
  · intro v hv
    have h1 : instanceId env st u = (v, (configVariables env st).2) := by
      show (match lookupA (configVariables env st).1 "instance_id" with
        | some v => (v, (configVariables env st).2)
        | none =>
          match (configVariables env st).2.inMemoryInstanceId with
          | some m => (m, (configVariables env st).2)
          | none =>
            (u, { (configVariables env st).2 with
                    inMemoryInstanceId := some u })) = _
      rw [hv]
    refine ⟨by rw [h1], ?_⟩
    rw [h1]
    have hcv2 : configVariables env (configVariables env st).2 =
        ((configVariables env st).1, (configVariables env st).2) :=
      hcstab (configVariables env st).2 rfl
    show (match lookupA (configVariables env (configVariables env st).2).1
        "instance_id" with
      | some v => (v, (configVariables env (configVariables env st).2).2)
      | none =>
        match (configVariables env (configVariables env st).2).2.inMemoryInstanceId with
        | some m => (m, (configVariables env (configVariables env st).2).2)
        | none =>
          (u', { (configVariables env (configVariables env st).2).2 with
                  inMemoryInstanceId := some u' })).1 = v
    rw [hcv2, hv]
  · intro hv him
    have him1 : (configVariables env st).2.inMemoryInstanceId = none := him
    have h1 : instanceId env st u =
        (u, { (configVariables env st).2 with
                inMemoryInstanceId := some u }) := by
      show (match lookupA (configVariables env st).1 "instance_id" with
        | some v => (v, (configVariables env st).2)
        | none =>
          match (configVariables env st).2.inMemoryInstanceId with
          | some m => (m, (configVariables env st).2)
          | none =>
            (u, { (configVariables env st).2 with
                    inMemoryInstanceId := some u })) = _
      rw [hv, him1]
    refine ⟨by rw [h1], by rw [h1], ?_⟩
    rw [h1]
    have hcv2 : configVariables env
        { (configVariables env st).2 with inMemoryInstanceId := some u } =
        ((configVariables env st).1,
          { (configVariables env st).2 with inMemoryInstanceId := some u }) :=
      hcstab _ rfl
    show (match lookupA (configVariables env
        { (configVariables env st).2 with
            inMemoryInstanceId := some u }).1 "instance_id" with
      | some v => (v, (configVariables env
          { (configVariables env st).2 with
              inMemoryInstanceId := some u }).2)
      | none =>
        match (configVariables env
            { (configVariables env st).2 with
                inMemoryInstanceId := some u }).2.inMemoryInstanceId with
        | some m => (m, (configVariables env
            { (configVariables env st).2 with
                inMemoryInstanceId := some u }).2)
        | none =>
          (u', { (configVariables env
              { (configVariables env st).2 with
                  inMemoryInstanceId := some u }).2 with
                  inMemoryInstanceId := some u' })).1 = u
    rw [hcv2, hv]

/-- C10 witness: with no `instance_id` config variable, the first read
returns the generated UUID and the second read returns the same value. -/
theorem instance_id_spec_witness :
    (instanceId baseEnv baseState "uuid-1").1 = "uuid-1" ∧
    (instanceId baseEnv
      (instanceId baseEnv baseState "uuid-1").2 "uuid-2").1 = "uuid-1" := by
  have h := (instance_id_spec baseEnv baseState "uuid-1" "uuid-2").2
    (by decide) (by decide)
  exact ⟨h.1, h.2.2⟩

/-- C5: `list_stores` returns, for every configured store, the masked
name-augmented copy of its config; every credential-shaped field of a
returned snapshot (in the scalar fields and in the backend sub-config) holds
the mask, never a raw value; and the context state, hence the stored
configuration, is unchanged. -/
theorem list_stores_masked (st : ContextState) :
    ((listStores st).2 = st) ∧
    (∀ p ∈ st.projectStores,
      sanitizeStoreConfig { p.2 with fields := setA p.2.fields "name" p.1 }
          ∈ (listStores st).1 ∧
      storeEntryName
          (sanitizeStoreConfig
            { p.2 with fields := setA p.2.fields "name" p.1 })
        = some p.1) ∧
    (∀ e ∈ (listStores st).1, ∀ k, isCredentialKey k = true →
      (∀ v, lookupA e.fields k = some v → v = MASKED_VALUE) ∧
      (∀ b v, e.storeBackend = some b → lookupA b k = some v →
        v = MASKED_VALUE)) := by
  refine ⟨rfl, ?_, ?_⟩
  · intro p hp
    constructor
    · exact List.mem_map_of_mem _ hp
    · show lookupA (sanitizeDict (setA p.2.fields "name" p.1)) "name"
        = some p.1
      rw [lookupA_sanitizeDict, lookupA_set_self]
      rfl
  · intro e he k hk
    rcases List.mem_map.mp he with ⟨p, hp, hep⟩
    constructor
    · intro v hv
      have hv' : lookupA (sanitizeDict (setA p.2.fields "name" p.1)) k
          = some v := by rw [← hep] at hv; exact hv
      rw [lookupA_sanitizeDict] at hv'
      cases hl : lookupA (setA p.2.fields "name" p.1) k with
      | none => rw [hl] at hv'; exact absurd hv' (by simp)
      | some w =>
        rw [hl] at hv'
        have hw := Option.some.inj hv'
        rw [← hw]
        show (if isCredentialKey k = true then MASKED_VALUE else w)
          = MASKED_VALUE
        rw [if_pos hk]
    · intro b v hb hv
      have hb' : (p.2.storeBackend.map sanitizeDict) = some b := by
        rw [← hep] at hb; exact hb
      cases hsb : p.2.storeBackend with
      | none => rw [hsb] at hb'; exact absurd hb' (by simp)
      | some b0 =>
        rw [hsb] at hb'
        have hbb : sanitizeDict b0 = b := by simpa using hb'
        rw [← hbb, lookupA_sanitizeDict] at hv
        cases hl : lookupA b0 k with
        | none => rw [hl] at hv; exact absurd hv (by simp)
        | some w =>
          rw [hl] at hv
          have hw := Option.some.inj hv
          rw [← hw]
          show (if isCredentialKey k = true then MASKED_VALUE else w)
            = MASKED_VALUE
          rw [if_pos hk]

/-- C5 witness: a store with a `credentials` field is returned with the mask
in place of the raw value. -/
theorem list_stores_masked_witness :
    ∀ e ∈ (listStores
        { baseState with
          projectStores :=
            [("my_store",
              { fields := [("class_name", "ExpectationsStore"),
                           ("credentials", "raw-secret")]
                storeBackend := some [("password", "hunter2")] })] }).1,
      ∀ v, lookupA e.fields "credentials" = some v → v = MASKED_VALUE := by
  intro e he v hv
  exact ((list_stores_masked
    { baseState with
      projectStores :=
        [("my_store",
          { fields := [("class_name", "ExpectationsStore"),
                       ("credentials", "raw-secret")]
            storeBackend := some [("password", "hunter2")] })] }).2.2
    e he "credentials" (by decide)).1 v hv

/-- C7: `list_active_stores` returns exactly the entries of `list_stores`
whose name is an active role-pointer name; when the checkpoint (or profiler)
role lookup raises, that role is omitted from the active names and the call
still succeeds; a configured checkpoint or profiler pointer is always
active. -/
theorem list_active_stores_spec (st : ContextState) :
    (∀ e, e ∈ listActiveStores st ↔
      e ∈ (listStores st).1 ∧
        ∃ n, storeEntryName e = some n ∧ n ∈ activeStoreNames st) ∧
    (∀ err, checkpointStoreName st = .error err →
      ∀ n ∈ activeStoreNames st,
        n = st.expectationsStoreName ∨ n = st.validationsStoreName ∨
        n = st.evaluationParameterStoreName ∨ profilerStoreName st = .ok n) ∧
    (∀ err, profilerStoreName st = .error err →
      ∀ n ∈ activeStoreNames st,
        n = st.expectationsStoreName ∨ n = st.validationsStoreName ∨
        n = st.evaluationParameterStoreName ∨
          checkpointStoreName st = .ok n) ∧
    (∀ n, st.checkpointStoreNameOpt = some n → n ∈ activeStoreNames st) ∧
    (∀ n, st.profilerStoreNameOpt = some n → n ∈ activeStoreNames st) := by
  refine ⟨?_, ?_, ?_, ?_, ?_⟩
  · intro e
    show e ∈ (listStores st).1.filter _ ↔ _
    rw [List.mem_filter]
    constructor
    · rintro ⟨hmem, hpred⟩
      refine ⟨hmem, ?_⟩
      cases hn : storeEntryName e with
      | none => rw [hn] at hpred; exact absurd hpred (by simp)
      | some n =>
        rw [hn] at hpred
        exact ⟨n, rfl, List.mem_of_elem_eq_true hpred⟩
    · rintro ⟨hmem, n, hn, hnmem⟩
      refine ⟨hmem, ?_⟩
      show (match storeEntryName e with
        | some n => (activeStoreNames st).contains n
        | none => false) = true
      rw [hn]
      exact List.elem_eq_true_of_mem hnmem
  · intro err herr n hn
    cases hp : profilerStoreName st with
    | ok m =>
      have hform : activeStoreNames st =
          (([st.expectationsStoreName, st.validationsStoreName,
            st.evaluationParameterStoreName] ++ ([] : List String)) ++ [m]) := by
        unfold activeStoreNames
        rw [herr, hp]
      rw [hform] at hn
      rcases List.mem_append.mp hn with h1 | h2
      · rcases List.mem_append.mp h1 with h3 | h4
        · rcases List.mem_cons.mp h3 with h | h3
          · exact Or.inl h
          rcases List.mem_cons.mp h3 with h | h3
          · exact Or.inr (Or.inl h)
          rcases List.mem_cons.mp h3 with h | h3
          · exact Or.inr (Or.inr (Or.inl h))
          · exact absurd h3 (List.not_mem_nil n)
        · exact absurd h4 (List.not_mem_nil n)
      · have hnm : n = m := List.mem_singleton.mp h2
        refine Or.inr (Or.inr (Or.inr ?_))
        rw [hnm]
    | error e2 =>
      have hform : activeStoreNames st =
          (([st.expectationsStoreName, st.validationsStoreName,
            st.evaluationParameterStoreName] ++ ([] : List String))
            ++ ([] : List String)) := by
        unfold activeStoreNames
        rw [herr, hp]
      rw [hform] at hn
      rcases List.mem_append.mp hn with h1 | h2
      · rcases List.mem_append.mp h1 with h3 | h4
        · rcases List.mem_cons.mp h3 with h | h3
          · exact Or.inl h
          rcases List.mem_cons.mp h3 with h | h3
          · exact Or.inr (Or.inl h)
          rcases List.mem_cons.mp h3 with h | h3
          · exact Or.inr (Or.inr (Or.inl h))
          · exact absurd h3 (List.not_mem_nil n)
        · exact absurd h4 (List.not_mem_nil n)
      · exact absurd h2 (List.not_mem_nil n)
  · intro err herr n hn
    cases hp : checkpointStoreName st with
    | ok m =>
      have hform : activeStoreNames st =
          (([st.expectationsStoreName, st.validationsStoreName,
            st.evaluationParameterStoreName] ++ [m])
            ++ ([] : List String)) := by
        unfold activeStoreNames
        rw [herr, hp]
      rw [hform] at hn
      rcases List.mem_append.mp hn with h1 | h2
      · rcases List.mem_append.mp h1 with h3 | h4
        · rcases List.mem_cons.mp h3 with h | h3
          · exact Or.inl h
          rcases List.mem_cons.mp h3 with h | h3
          · exact Or.inr (Or.inl h)
          rcases List.mem_cons.mp h3 with h | h3
          · exact Or.inr (Or.inr (Or.inl h))
          · exact absurd h3 (List.not_mem_nil n)
        · have hnm : n = m := List.mem_singleton.mp h4
          refine Or.inr (Or.inr (Or.inr ?_))
          rw [hnm]
      · exact absurd h2 (List.not_mem_nil n)
    | error e2 =>
      have hform : activeStoreNames st =
          (([st.expectationsStoreName, st.validationsStoreName,
            st.evaluationParameterStoreName] ++ ([] : List String))
            ++ ([] : List String)) := by
        unfold activeStoreNames
        rw [herr, hp]
      rw [hform] at hn
      rcases List.mem_append.mp hn with h1 | h2
      · rcases List.mem_append.mp h1 with h3 | h4
        · rcases List.mem_cons.mp h3 with h | h3
          · exact Or.inl h
          rcases List.mem_cons.mp h3 with h | h3
          · exact Or.inr (Or.inl h)
          rcases List.mem_cons.mp h3 with h | h3
          · exact Or.inr (Or.inr (Or.inl h))
          · exact absurd h3 (List.not_mem_nil n)
        · exact absurd h4 (List.not_mem_nil n)
      · exact absurd h2 (List.not_mem_nil n)
  · intro n hcn
    have hok : checkpointStoreName st = .ok n := by
      show (match st.checkpointStoreNameOpt with
        | some n => Except.ok n
        | none => _) = Except.ok n
      rw [hcn]
    have hform : activeStoreNames st =
        (([st.expectationsStoreName, st.validationsStoreName,
          st.evaluationParameterStoreName] ++ [n])
          ++ (match profilerStoreName st with
              | .ok m => [m]
              | .error _ => [])) := by
      unfold activeStoreNames
      rw [hok]
    rw [hform]
    exact List.mem_append.mpr (Or.inl (List.mem_append.mpr
      (Or.inr (List.mem_singleton.mpr rfl))))
  · intro n hpn
    have hok : profilerStoreName st = .ok n := by
      show (match st.profilerStoreNameOpt with
        | some n => Except.ok n
        | none => _) = Except.ok n
      rw [hpn]
    have hform : activeStoreNames st =
        (([st.expectationsStoreName, st.validationsStoreName,
          st.evaluationParameterStoreName]
          ++ (match checkpointStoreName st with
              | .ok m => [m]
              | .error _ => []))
          ++ [n]) := by
      unfold activeStoreNames
      rw [hok]
    rw [hform]
    exact List.mem_append.mpr (Or.inr (List.mem_singleton.mpr rfl))

/-- C7 witness: with two configured stores and only one referenced by the
expectations role pointer among them, the active list filters to role-pointer
names, a configured checkpoint pointer is active, and an unconfigured
profiler pointer is omitted. -/
theorem list_active_stores_spec_witness :
    ("ckpt" ∈ activeStoreNames
      { baseState with checkpointStoreNameOpt := some "ckpt" }) ∧
    (∀ n ∈ activeStoreNames baseState,
      n = baseState.expectationsStoreName ∨
      n = baseState.validationsStoreName ∨
      n = baseState.evaluationParameterStoreName ∨
        checkpointStoreName baseState = .ok n) := by
  constructor
  · exact (list_active_stores_spec
      { baseState with checkpointStoreNameOpt := some "ckpt" }).2.2.2.1
      "ckpt" (by decide)
  · exact (list_active_stores_spec baseState).2.2.1
      (.invalidTopLevelConfigKeyError
        "profiler_store_name field with no profilers directory")
      rfl

theorem injectExpectationsId_fields (st : ContextState) (n : String)
    (c : StoreConfig) : (injectExpectationsId st n c).fields = c.fields := by
  unfold injectExpectationsId
  split <;> rfl

theorem injectSuppress_fields (st : ContextState) (n : String)
    (c : StoreConfig) : (injectSuppress st n c).fields = c.fields := by
  unfold injectSuppress
  split <;> rfl

theorem injectExpectationsId_backend_isSome (st : ContextState) (n : String)
    (c : StoreConfig) :
    ((injectExpectationsId st n c).storeBackend).isSome
      = c.storeBackend.isSome := by
  unfold injectExpectationsId
  split
  · cases c.storeBackend <;> rfl
  · rfl

theorem injectExpectationsId_of_pos (st : ContextState) (n : String)
    (c : StoreConfig) (h1 : n = st.expectationsStoreName)
    (h2 : backendTruthy c = true) :
    injectExpectationsId st n c =
      { c with storeBackend := c.storeBackend.map (fun b =>
          setA b "manually_initialize_store_backend_id" st.dataContextId) } := by
  have hc : (n == st.expectationsStoreName && backendTruthy c) = true := by
    rw [h1, h2]
    simp
  unfold injectExpectationsId
  rw [if_pos hc]

theorem injectExpectationsId_of_ne (st : ContextState) (n : String)
    (c : StoreConfig) (h : n ≠ st.expectationsStoreName) :
    injectExpectationsId st n c = c := by
  have hb : (n == st.expectationsStoreName) = false := by
    simp only [beq_eq_false_iff_ne, ne_eq]
    exact h
  have hc : (n == st.expectationsStoreName && backendTruthy c) = false := by
    rw [hb]
    rfl
  unfold injectExpectationsId
  rw [if_neg (by rw [hc]; exact Bool.false_ne_true)]

theorem injectSuppress_of_mem (st : ContextState) (n : String)
    (c : StoreConfig) (h : n ∈ builtActiveNames st) :
    injectSuppress st n c = c := by
  have h1 : (builtActiveNames st).contains n = true :=
    List.elem_eq_true_of_mem h
  have hc : (!((builtActiveNames st).contains n) && c.storeBackend.isSome)
      = false := by
    rw [h1]
    rfl
  unfold injectSuppress
  rw [if_neg (by rw [hc]; exact Bool.false_ne_true)]

theorem injectSuppress_of_pos (st : ContextState) (n : String)
    (c : StoreConfig) (h1 : n ∉ builtActiveNames st)
    (h2 : c.storeBackend.isSome = true) :
    injectSuppress st n c =
      { c with storeBackend := c.storeBackend.map (fun b =>
          setA b "suppress_store_backend_id" "True") } := by
  have hcont : (builtActiveNames st).contains n = false := by
    rcases hc : (builtActiveNames st).contains n with _ | _
    · rfl
    · exact absurd (List.mem_of_elem_eq_true hc) h1
  have hcond : (!((builtActiveNames st).contains n) && c.storeBackend.isSome)
      = true := by
    rw [hcont, h2]
    rfl
  unfold injectSuppress
  rw [if_pos hcond]

theorem backendTruthy_some (c : StoreConfig) (h : backendTruthy c = true) :
    ∃ d, c.storeBackend = some d ∧ d.isEmpty = false := by
  cases hsb : c.storeBackend with
  | none =>
    unfold backendTruthy at h
    rw [hsb] at h
    exact absurd h (by decide)
  | some d =>
    unfold backendTruthy at h
    rw [hsb] at h
    have h' : (!d.isEmpty) = true := h
    cases he : d.isEmpty with
    | true => rw [he] at h'; exact absurd h' (by decide)
    | false => exact ⟨d, rfl, he⟩

/-- C8 counterexample: an inactive store with a backend sub-config comes back
from `_build_store_from_config` with its config changed — the caller's config
object (modelled by the returned config, since the source's `dict.update` is
in place) is mutated, so the claim's "mutates only a copy (never the caller's
config object)" is false. -/
theorem build_store_mutates_caller_counterexample :
    (buildStoreFromConfig baseState "foo" mutCfg).1 ≠ mutCfg := by decide

/-- C8 amended: `_build_store_from_config` mutates the backend sub-config of
the caller's config object in place (no copy is taken), injecting exactly the
two conditional fields: `manually_initialize_store_backend_id` with the
context's data-context id for the expectations-role store (truthy backend),
and `suppress_store_backend_id` for a store not currently active (backend
present); the scalar fields are untouched, a non-expectations active store is
left unchanged, and the only other state effect is caching the built store. -/
theorem build_store_injects_conditional_fields (st : ContextState)
    (storeName : String) (cfg : StoreConfig) :
    ((buildStoreFromConfig st storeName cfg).1.fields = cfg.fields) ∧
    (storeName = st.expectationsStoreName → backendTruthy cfg = true →
      ∃ b, (buildStoreFromConfig st storeName cfg).1.storeBackend = some b ∧
        lookupA b "manually_initialize_store_backend_id"
          = some st.dataContextId) ∧
    (storeName ∉ builtActiveNames st → cfg.storeBackend.isSome = true →
      ∃ b, (buildStoreFromConfig st storeName cfg).1.storeBackend = some b ∧
        lookupA b "suppress_store_backend_id" = some "True") ∧
    (storeName ≠ st.expectationsStoreName → storeName ∈ builtActiveNames st →
      (buildStoreFromConfig st storeName cfg).1 = cfg) ∧
    ((buildStoreFromConfig st storeName cfg).2 =
      { st with builtStores := setA st.builtStores storeName (buildStoreFromConfig st storeName cfg).1 }) := by
  have hfst : (buildStoreFromConfig st storeName cfg).1 =
      injectSuppress st storeName (injectExpectationsId st storeName cfg) :=
    rfl
  refine ⟨?_, ?_, ?_, ?_, rfl⟩
  · rw [hfst, injectSuppress_fields, injectExpectationsId_fields]
  · intro hexp htruthy
    rcases backendTruthy_some cfg htruthy with ⟨d, hsb, _⟩
    have hcfg1 : injectExpectationsId st storeName cfg =
        { cfg with storeBackend := some (setA d "manually_initialize_store_backend_id" st.dataContextId) } := by
      rw [injectExpectationsId_of_pos st storeName cfg hexp htruthy, hsb]
      rfl
    by_cases hmem : storeName ∈ builtActiveNames st
    · refine ⟨setA d "manually_initialize_store_backend_id" st.dataContextId,
        ?_, lookupA_set_self _ _ _⟩
      rw [hfst, injectSuppress_of_mem st storeName _ hmem, hcfg1]
    · have hisS : (injectExpectationsId st storeName cfg).storeBackend.isSome
          = true := by
        rw [hcfg1]
        rfl
      refine ⟨setA (setA d "manually_initialize_store_backend_id"
          st.dataContextId) "suppress_store_backend_id" "True", ?_, ?_⟩
      · rw [hfst, injectSuppress_of_pos st storeName _ hmem hisS, hcfg1]
        rfl
      · rw [lookupA_set_ne _ _ _ _ (by decide), lookupA_set_self]
  · intro hmem hisS
    have hisS1 : (injectExpectationsId st storeName cfg).storeBackend.isSome
        = true := by
      rw [injectExpectationsId_backend_isSome]
      exact hisS
    cases hsb1 : (injectExpectationsId st storeName cfg).storeBackend with
    | none => rw [hsb1] at hisS1; exact absurd hisS1 (by decide)
    | some d1 =>
      refine ⟨setA d1 "suppress_store_backend_id" "True", ?_,
        lookupA_set_self _ _ _⟩
      rw [hfst, injectSuppress_of_pos st storeName _ hmem hisS1, hsb1]
      rfl
  · intro hne hmem
    rw [hfst, injectExpectationsId_of_ne st storeName cfg hne,
      injectSuppress_of_mem st storeName cfg hmem]

/-- C8 witness: building the expectations-role store injects the context's
data-context id into the backend sub-config. -/
theorem build_store_injects_conditional_fields_witness :
    ∃ b, (buildStoreFromConfig baseState "expectations_store"
        mutCfg).1.storeBackend = some b ∧
      lookupA b "manually_initialize_store_backend_id"
        = some baseState.dataContextId :=
  (build_store_injects_conditional_fields baseState "expectations_store"
    mutCfg).2.1 rfl (by decide)

theorem getDatasource_cached (env : Env) (st : ContextState) (name : String)
    (ds : Datasource) (hc : lookupA st.cachedDatasources name = some ds) :
    getDatasource env st name = (.ok (some ds), st) := by
  unfold getDatasource
  rw [hc]

theorem getDatasource_absent (env : Env) (st : ContextState) (name : String)
    (hc : lookupA st.cachedDatasources name = none)
    (hs : lookupA st.datasourceStoreData name = none) :
    getDatasource env st name = (.ok none, st) := by
  unfold getDatasource
  rw [hc, hs]

theorem getDatasource_miss_def (env : Env) (st : ContextState) (name : String)
    (cfg : ConfigDict) (hc : lookupA st.cachedDatasources name = none)
    (hs : lookupA st.datasourceStoreData name = some cfg) :
    getDatasource env st name =
      (match instantiateDatasourceFromConfig env
          (determineSubstitutions env st).2 name
          (substituteAllConfigVariables cfg
            (determineSubstitutions env st).1) with
       | .error e => (.error e, (determineSubstitutions env st).2)
       | .ok ds => (.ok (some ds),
          { (determineSubstitutions env st).2 with
              cachedDatasources := setA st.cachedDatasources name ds })) := by
  unfold getDatasource
  rw [hc, hs]
  rfl

theorem getDatasource_miss_error (env : Env) (st : ContextState)
    (name : String) (cfg : ConfigDict) (e : GEError)
    (hc : lookupA st.cachedDatasources name = none)
    (hs : lookupA st.datasourceStoreData name = some cfg)
    (hi : instantiateDatasourceFromConfig env (determineSubstitutions env st).2
      name (substituteAllConfigVariables cfg (determineSubstitutions env st).1)
      = .error e) :
    getDatasource env st name = (.error e, (determineSubstitutions env st).2) := by
  rw [getDatasource_miss_def env st name cfg hc hs, hi]

theorem getDatasource_miss_ok (env : Env) (st : ContextState)
    (name : String) (cfg : ConfigDict) (ds : Datasource)
    (hc : lookupA st.cachedDatasources name = none)
    (hs : lookupA st.datasourceStoreData name = some cfg)
    (hi : instantiateDatasourceFromConfig env (determineSubstitutions env st).2
      name (substituteAllConfigVariables cfg (determineSubstitutions env st).1)
      = .ok ds) :
    getDatasource env st name =
      (.ok (some ds),
        { (determineSubstitutions env st).2 with
            cachedDatasources := setA st.cachedDatasources name ds }) := by
  rw [getDatasource_miss_def env st name cfg hc hs, hi]

theorem getDatasource_store_frame (env : Env) (st : ContextState)
    (name : String) :
    ((getDatasource env st name).2).datasourceStoreData
      = st.datasourceStoreData := by
  cases hc : lookupA st.cachedDatasources name with
  | some ds => rw [getDatasource_cached env st name ds hc]
  | none =>
    cases hs : lookupA st.datasourceStoreData name with
    | none => rw [getDatasource_absent env st name hc hs]
    | some cfg =>
      cases hi : instantiateDatasourceFromConfig env
          (determineSubstitutions env st).2 name
          (substituteAllConfigVariables cfg
            (determineSubstitutions env st).1) with
      | error e =>
        rw [getDatasource_miss_error env st name cfg e hc hs hi]
        rfl
      | ok ds =>
        rw [getDatasource_miss_ok env st name cfg ds hc hs hi]
        rfl

theorem instantiateDatasourceFromConfig_error_shape (env : Env)
    (st : ContextState) (name : String) (config : ConfigDict) (e : GEError)
    (h : instantiateDatasourceFromConfig env st name config = .error e) :
    ∃ msg, e = .datasourceInitializationError name msg := by
  unfold instantiateDatasourceFromConfig at h
  cases hb : buildDatasourceFromConfig env st name config with
  | ok ds => rw [hb] at h; exact absurd h (by simp)
  | error msg =>
    rw [hb] at h
    injection h with h'
    exact ⟨msg, h'.symm⟩

theorem buildDatasourceFromConfig_eval (env : Env) (st : ContextState)
    (name : String) (config : ConfigDict) (cn : String)
    (hcn : lookupA (setA config "name" name) "class_name" = some cn)
    (r : Except String (Option Datasource))
    (hor : ∀ c, env.buildDatasourceOracle name c = r) :
    buildDatasourceFromConfig env st name config =
      (match r with
       | .error e => .error e
       | .ok none => .error ("ClassInstantiationError: " ++ cn)
       | .ok (some ds) => .ok ds) := by
  simp only [buildDatasourceFromConfig, hcn]
  by_cases hc2 : cn = "BaseDatasource" ∨ cn = "Datasource"
  · rw [if_pos hc2, hor]
    cases r with
    | error e => rfl
    | ok o => cases o <;> rfl
  · rw [if_neg hc2, hor]
    cases r with
    | error e => rfl
    | ok o => cases o <;> rfl

theorem instantiateDatasourceFromConfig_eval (env : Env) (st : ContextState)
    (name : String) (config : ConfigDict) (cn : String)
    (hcn : lookupA (setA config "name" name) "class_name" = some cn)
    (r : Except String (Option Datasource))
    (hor : ∀ c, env.buildDatasourceOracle name c = r) :
    instantiateDatasourceFromConfig env st name config =
      (match r with
       | .error msg => .error (.datasourceInitializationError name msg)
       | .ok none => .error (.datasourceInitializationError name
          ("ClassInstantiationError: " ++ cn))
       | .ok (some ds) => .ok ds) := by
  unfold instantiateDatasourceFromConfig
  rw [buildDatasourceFromConfig_eval env st name config cn hcn r hor]
  cases r with
  | error e => rfl
  | ok o => cases o <;> rfl

theorem listDatasources_names (env : Env) (st : ContextState)
    (hkeys : ∀ k ∈ keysA st.datasourceStoreData, placeholderFree k = true) :
    ∀ entry ∈ (listDatasources env st).1, ∀ n,
      lookupA entry "name" = some n → n ∈ keysA st.datasourceStoreData := by
  intro entry hentry n hn
  have hentry' : entry ∈ (keysA st.datasourceStoreData).map (fun name =>
      match lookupA st.datasourceStoreData name with
      | some cfg =>
        sanitizeDict
          (substituteAllConfigVariables (setA cfg "name" name)
            (determineSubstitutions env st).1)
      | none => []) := hentry
  rcases List.mem_map.mp hentry' with ⟨k, hk, hek⟩
  have hks : (lookupA st.datasourceStoreData k).isSome = true :=
    (lookupA_isSome_iff_mem_keys _ _).mpr hk
  cases hl : lookupA st.datasourceStoreData k with
  | none => rw [hl] at hks; exact absurd hks (by decide)
  | some cfg =>
    rw [hl] at hek
    have hek' : sanitizeDict
        (substituteAllConfigVariables (setA cfg "name" k)
          (determineSubstitutions env st).1) = entry := hek
    have hval : lookupA entry "name" =
        some (if isCredentialKey "name" = true then MASKED_VALUE
          else substituteString k (determineSubstitutions env st).1) := by
      rw [← hek', lookupA_sanitizeDict, lookupA_substituteAll,
        lookupA_set_self]
      rfl
    have hn2 : some (if isCredentialKey "name" = true then MASKED_VALUE
        else substituteString k (determineSubstitutions env st).1)
        = some n := by rw [← hval, hn]
    have hn3 := Option.some.inj hn2
    rw [← hn3,
      if_neg (show ¬(isCredentialKey "name" = true) by decide),
      substituteString_placeholderFree k _ (hkeys k hk)]
    exact hk

/-- C3: `delete_datasource` resolves through `get_datasource` first; a name
that resolves to nothing fails with the `ValueError` ("not found") kind and
leaves the state untouched; a successful delete removes the persisted config
and evicts the cache entry, so a subsequent `get_datasource` observes absence
and `list_datasources` no longer lists the name. -/
theorem delete_datasource_spec (env : Env) (st : ContextState)
    (name : String) :
    (lookupA st.cachedDatasources name = none →
      lookupA st.datasourceStoreData name = none →
      deleteDatasource env st name =
        (.error (.valueError ("Datasource " ++ name ++ " not found")), st)) ∧
    (∀ u st', deleteDatasource env st name = (.ok u, st') →
      (getDatasource env st' name).1 = .ok none ∧
      lookupA st'.datasourceStoreData name = none ∧
      lookupA st'.cachedDatasources name = none ∧
      ((∀ k ∈ keysA st.datasourceStoreData, placeholderFree k = true) →
        ∀ entry ∈ (listDatasources env st').1,
          lookupA entry "name" ≠ some name)) := by
  constructor
  · intro hc hs
    unfold deleteDatasource
    rw [getDatasource_absent env st name hc hs]
  · intro u st' hdel
    rcases hg : getDatasource env st name with ⟨res, st1⟩
    unfold deleteDatasource at hdel
    rw [hg] at hdel
    cases res with
    | error e => exact absurd hdel (by simp)
    | ok o =>
      cases o with
      | none => exact absurd hdel (by simp)
      | some ds =>
        rw [Prod.mk.injEq] at hdel
        obtain ⟨h1, h2⟩ := hdel
        subst h2
        have hframe : st1.datasourceStoreData = st.datasourceStoreData := by
          have hh := getDatasource_store_frame env st name
          rw [hg] at hh
          exact hh
        have hca : lookupA (eraseA st1.cachedDatasources name) name = none :=
          lookupA_erase_self _ _
        have hsa : lookupA (eraseA st1.datasourceStoreData name) name = none :=
          lookupA_erase_self _ _
        refine ⟨?_, hsa, hca, ?_⟩
        · rw [getDatasource_absent env _ name hca hsa]
        · intro hkeys entry hentry heq
          have hkeys' : ∀ k ∈ keysA (eraseA st1.datasourceStoreData name),
              placeholderFree k = true := by
            intro k hk
            rcases mem_keys_erase hk with ⟨hk1, _⟩
            rw [hframe] at hk1
            exact hkeys k hk1
          have hmem := listDatasources_names env _ hkeys' entry hentry name heq
          rcases mem_keys_erase hmem with ⟨_, hne⟩
          exact hne rfl

/-- C3 witness: deleting a datasource with no persisted config fails with
"not found"; after a successful delete the datasource is no longer
gettable. -/
theorem delete_datasource_spec_witness :
    (deleteDatasource baseEnv baseState "nope" =
      (.error (.valueError "Datasource nope not found"), baseState)) ∧
    ((getDatasource baseEnv (deleteDatasource baseEnv staleSt "x").2 "x").1
      = .ok none) := by
  constructor
  · exact (delete_datasource_spec baseEnv baseState "nope").1 rfl rfl
  · exact ((delete_datasource_spec baseEnv staleSt "x").2 ()
      (deleteDatasource baseEnv staleSt "x").2 (by decide)).1

theorem addDatasource_init_def (env : Env) (st : ContextState) (name : String)
    (config : ConfigDict) :
    addDatasource env st name config true =
      (match instantiateDatasourceFromConfig env
          (determineSubstitutions env
            { st with datasourceStoreData := setA st.datasourceStoreData name config }).2
          name
          (substituteAllConfigVariables config
            (determineSubstitutions env
              { st with datasourceStoreData := setA st.datasourceStoreData name config }).1) with
       | .ok ds => (.ok (some ds),
          { (determineSubstitutions env { st with datasourceStoreData := setA st.datasourceStoreData name config }).2 with cachedDatasources := setA st.cachedDatasources name ds })
       | .error e => (.error e,
          { (determineSubstitutions env { st with datasourceStoreData := setA st.datasourceStoreData name config }).2 with datasourceStoreData := eraseA (setA st.datasourceStoreData name config) name })) :=
  rfl

/-- C1 counterexample: re-adding the already-cached datasource `x` with a
config that fails to instantiate raises the initialization error and rolls
back the persisted config (`list` is empty afterwards), yet `get_datasource`
still succeeds, returning the stale cached instance — so the claim's "after a
failed add the name appears neither in `list_datasources()` nor in a
successful `get_datasource(name)`" is false as stated. -/
theorem add_datasource_stale_cache_counterexample :
    ((addDatasource failEnv staleSt "x" badCfg true).1 =
      .error (.datasourceInitializationError "x" "boom")) ∧
    ((listDatasources failEnv
      (addDatasource failEnv staleSt "x" badCfg true).2).1 = []) ∧
    ((getDatasource failEnv
      (addDatasource failEnv staleSt "x" badCfg true).2 "x").1
      = .ok (some oldDs)) := by decide

/-- C1 amended: `add_datasource` with initialization persists first and rolls
back on a `DatasourceInitializationError`: after a failed add the error
carries the datasource name, the persisted config is gone, and
`list_datasources` no longer lists the name; `get_datasource` finds nothing
provided the name was not already in the in-memory cache from a previous
successful instantiation (a stale cache entry is still returned); with
initialization disabled the config is persisted without instantiation. -/
theorem add_datasource_rollback_on_failed_init (env : Env)
    (st : ContextState) (name : String) (config : ConfigDict) (e : GEError)
    (st' : ContextState)
    (h : addDatasource env st name config true = (.error e, st')) :
    (∃ msg, e = .datasourceInitializationError name msg) ∧
    lookupA st'.datasourceStoreData name = none ∧
    st'.cachedDatasources = st.cachedDatasources ∧
    (lookupA st.cachedDatasources name = none →
      (getDatasource env st' name).1 = .ok none) ∧
    ((∀ k ∈ keysA st.datasourceStoreData, placeholderFree k = true) →
      ∀ entry ∈ (listDatasources env st').1,
        lookupA entry "name" ≠ some name) ∧
    ((addDatasource env st name config false).1 = .ok none ∧
      lookupA ((addDatasource env st name config false).2).datasourceStoreData
        name = some config) := by
  rw [addDatasource_init_def env st name config] at h
  cases hi : instantiateDatasourceFromConfig env
      (determineSubstitutions env
        { st with datasourceStoreData := setA st.datasourceStoreData name config }).2
      name
      (substituteAllConfigVariables config
        (determineSubstitutions env
          { st with datasourceStoreData := setA st.datasourceStoreData name config }).1) with
  | ok ds => rw [hi] at h; exact absurd h (by simp)
  | error e2 =>
    rw [hi] at h
    rw [Prod.mk.injEq] at h
    obtain ⟨h1, h2⟩ := h
    have he : e2 = e := by injection h1
    subst he
    have hcached : st'.cachedDatasources = st.cachedDatasources := by
      rw [← h2]
      rfl
    have hstore : st'.datasourceStoreData
        = eraseA (setA st.datasourceStoreData name config) name := by
      rw [← h2]
    refine ⟨instantiateDatasourceFromConfig_error_shape env _ name _ _ hi,
      ?_, hcached, ?_, ?_, rfl, lookupA_set_self _ _ _⟩
    · rw [hstore]
      exact lookupA_erase_self _ _
    · intro hcnone
      rw [getDatasource_absent env st' name
        (by rw [hcached]; exact hcnone)
        (by rw [hstore]; exact lookupA_erase_self _ _)]
    · intro hkeys entry hentry heq
      have hkeys' : ∀ k ∈ keysA st'.datasourceStoreData,
          placeholderFree k = true := by
        intro k hk
        rw [hstore] at hk
        rcases mem_keys_erase hk with ⟨hk1, hne⟩
        rcases mem_keys_set hk1 with rfl | hk2
        · exact absurd rfl hne
        · exact hkeys k hk2
      have hmem := listDatasources_names env st' hkeys' entry hentry name heq
      rw [hstore] at hmem
      rcases mem_keys_erase hmem with ⟨_, hne⟩
      exact hne rfl

/-- C1 witness: a failed add of a fresh datasource leaves no persisted config
and a subsequent get finds nothing. -/
theorem add_datasource_rollback_on_failed_init_witness :
    lookupA ((addDatasource failEnv baseState "y" badCfg
        true).2).datasourceStoreData "y" = none ∧
    (getDatasource failEnv
      (addDatasource failEnv baseState "y" badCfg true).2 "y").1
      = .ok none := by
  have h := add_datasource_rollback_on_failed_init failEnv baseState "y"
    badCfg (.datasourceInitializationError "y" "boom")
    (addDatasource failEnv baseState "y" badCfg true).2 (by decide)
  exact ⟨h.2.1, h.2.2.2.1 (by decide)⟩

theorem initDatasourcesStep_of_cached (env : Env) (st : ContextState)
    (name : String) (ds : Datasource)
    (hc : lookupA st.cachedDatasources name = some ds) :
    initDatasourcesStep env st name =
      { st with cachedDatasources := setA st.cachedDatasources name ds } := by
  unfold initDatasourcesStep
  rw [getDatasource_cached env st name ds hc]

theorem initDatasourcesStep_of_error (env : Env) (st : ContextState)
    (name : String) (e : GEError) (st1 : ContextState)
    (hg : getDatasource env st name = (.error e, st1)) :
    initDatasourcesStep env st name = st1 := by
  unfold initDatasourcesStep
  rw [hg]

theorem initDatasourcesStep_of_ok (env : Env) (st : ContextState)
    (name : String) (ds : Datasource) (st1 : ContextState)
    (hg : getDatasource env st name = (.ok (some ds), st1)) :
    initDatasourcesStep env st name =
      { st1 with cachedDatasources := setA st1.cachedDatasources name ds } := by
  unfold initDatasourcesStep
  rw [hg]

theorem initDatasourcesStep_spec (env : Env) (bad : String → Bool)
    (msgF : String → String) (dsF : String → Datasource)
    (horacle : ∀ n c, env.buildDatasourceOracle n c =
      if bad n then .error (msgF n) else .ok (some (dsF n)))
    (st : ContextState) (name : String) (cfg : ConfigDict) (cn : String)
    (hs : lookupA st.datasourceStoreData name = some cfg)
    (hcls : lookupA cfg "class_name" = some cn) :
    ((initDatasourcesStep env st name).datasourceStoreData
      = st.datasourceStoreData) ∧
    (∀ k, (lookupA (initDatasourcesStep env st name).cachedDatasources
        k).isSome
      = ((lookupA st.cachedDatasources k).isSome
          || (k == name && !bad name))) := by
  cases hc : lookupA st.cachedDatasources name with
  | some ds =>
    rw [initDatasourcesStep_of_cached env st name ds hc]
    refine ⟨rfl, ?_⟩
    intro k
    show (lookupA (setA st.cachedDatasources name ds) k).isSome
      = ((lookupA st.cachedDatasources k).isSome || (k == name && !bad name))
    by_cases hk : k = name
    · subst hk
      rw [lookupA_set_self, hc]
      show true = (true || _)
      rw [Bool.true_or]
    · rw [lookupA_set_ne _ _ _ _ hk]
      have hkb : (k == name) = false := by simp [hk]
      rw [hkb, Bool.false_and, Bool.or_false]
  | none =>
    have hcn' : lookupA
        (setA (substituteAllConfigVariables cfg
          (determineSubstitutions env st).1) "name" name) "class_name"
        = some (substituteString cn (determineSubstitutions env st).1) := by
      rw [lookupA_set_ne _ _ _ _ (by decide), lookupA_substituteAll, hcls]
      rfl
    cases hbad : bad name with
    | true =>
      have hor : ∀ c, env.buildDatasourceOracle name c
          = .error (msgF name) := by
        intro c
        rw [horacle name c, hbad]
        rfl
      have hi' : instantiateDatasourceFromConfig env
          (determineSubstitutions env st).2 name
          (substituteAllConfigVariables cfg
            (determineSubstitutions env st).1)
          = .error (.datasourceInitializationError name (msgF name)) :=
        instantiateDatasourceFromConfig_eval env
          (determineSubstitutions env st).2 name _ _ hcn'
          (.error (msgF name)) hor
      have hget := getDatasource_miss_error env st name cfg _ hc hs hi'
      rw [initDatasourcesStep_of_error env st name _ _ hget]
      refine ⟨rfl, ?_⟩
      intro k
      show (lookupA st.cachedDatasources k).isSome
        = ((lookupA st.cachedDatasources k).isSome || (k == name && false))
      rw [Bool.and_false, Bool.or_false]
    | false =>
      have hor : ∀ c, env.buildDatasourceOracle name c
          = .ok (some (dsF name)) := by
        intro c
        rw [horacle name c, hbad]
        rfl
      have hi' : instantiateDatasourceFromConfig env
          (determineSubstitutions env st).2 name
          (substituteAllConfigVariables cfg
            (determineSubstitutions env st).1)
          = .ok (dsF name) :=
        instantiateDatasourceFromConfig_eval env
          (determineSubstitutions env st).2 name _ _ hcn'
          (.ok (some (dsF name))) hor
      have hget := getDatasource_miss_ok env st name cfg (dsF name) hc hs hi'
      rw [initDatasourcesStep_of_ok env st name (dsF name) _ hget]
      refine ⟨rfl, ?_⟩
      intro k
      show (lookupA (setA (setA st.cachedDatasources name (dsF name)) name
          (dsF name)) k).isSome
        = ((lookupA st.cachedDatasources k).isSome || (k == name && true))
      by_cases hk : k = name
      · rw [hk, lookupA_set_self, beq_self_eq_true]
        show true = ((lookupA st.cachedDatasources name).isSome || true)
        rw [Bool.or_true]
      · rw [lookupA_set_ne _ _ _ _ hk, lookupA_set_ne _ _ _ _ hk]
        have hkb : (k == name) = false := by simp [hk]
        rw [hkb, Bool.false_and, Bool.or_false]

theorem initDatasources_fold_cache (env : Env) (bad : String → Bool)
    (msgF : String → String) (dsF : String → Datasource)
    (horacle : ∀ n c, env.buildDatasourceOracle n c =
      if bad n then .error (msgF n) else .ok (some (dsF n))) :
    ∀ (ns : List String) (st : ContextState),
      (∀ n ∈ ns, ∃ cfg cn, lookupA st.datasourceStoreData n = some cfg ∧
        lookupA cfg "class_name" = some cn) →
      ((ns.foldl (initDatasourcesStep env) st).datasourceStoreData
        = st.datasourceStoreData) ∧
      (∀ k, (lookupA (ns.foldl (initDatasourcesStep env)
          st).cachedDatasources k).isSome
        = ((lookupA st.cachedDatasources k).isSome
            || (ns.contains k && !bad k))) := by
  intro ns
  induction ns with
  | nil =>
    intro st _
    refine ⟨rfl, ?_⟩
    intro k
    show _ = ((lookupA st.cachedDatasources k).isSome || (false && !bad k))
    rw [Bool.false_and, Bool.or_false]
    rfl
  | cons n ns ih =>
    intro st h
    rcases h n (List.mem_cons_self n ns) with ⟨cfg, cn, hs, hcls⟩
    have hstep := initDatasourcesStep_spec env bad msgF dsF horacle st n cfg
      cn hs hcls
    have hnext : ∀ m ∈ ns, ∃ cfg cn,
        lookupA (initDatasourcesStep env st n).datasourceStoreData m
          = some cfg ∧ lookupA cfg "class_name" = some cn := by
      intro m hm
      rw [hstep.1]
      exact h m (List.mem_cons_of_mem n hm)
    have hih := ih (initDatasourcesStep env st n) hnext
    have hfold : (n :: ns).foldl (initDatasourcesStep env) st
        = ns.foldl (initDatasourcesStep env) (initDatasourcesStep env st n) :=
      rfl
    refine ⟨?_, ?_⟩
    · rw [hfold, hih.1, hstep.1]
    · intro k
      rw [hfold, hih.2 k, hstep.2 k]
      by_cases hk : k = n
      · subst hk
        rw [beq_self_eq_true]
        have hcc : (k :: ns).contains k = true :=
          List.elem_eq_true_of_mem (List.mem_cons_self k ns)
        rw [hcc]
        cases hA : (lookupA st.cachedDatasources k).isSome <;>
          cases hB : bad k <;> cases hC : ns.contains k <;> rfl
      · have hkb : (k == n) = false := by simp [hk]
        have hcons : (n :: ns).contains k = ((k == n) || ns.contains k) := rfl
        rw [hcons, hkb, Bool.false_and, Bool.or_false, Bool.false_or]

/-- C4: construction-time bulk initialization of the persisted datasources
catches the initialization error per datasource and continues: afterwards the
cache holds exactly the datasources that instantiate successfully, broken
ones included in neither the cache nor any failure of the loop (which is
total by construction); by contrast an ad-hoc `get_datasource` for a broken
datasource raises the `DatasourceInitializationError` carrying the name and
underlying message. -/
theorem init_datasources_catches_and_continues (env : Env)
    (st : ContextState) (bad : String → Bool) (msgF : String → String)
    (dsF : String → Datasource)
    (horacle : ∀ n c, env.buildDatasourceOracle n c =
      if bad n then .error (msgF n) else .ok (some (dsF n)))
    (hwf : ∀ n ∈ keysA st.datasourceStoreData, ∃ cfg cn,
      lookupA st.datasourceStoreData n = some cfg ∧
      lookupA cfg "class_name" = some cn)
    (hcache0 : st.cachedDatasources = []) :
    (∀ name, (lookupA (initDatasources env st).cachedDatasources name).isSome
      = ((keysA st.datasourceStoreData).contains name && !bad name)) ∧
    (∀ name cfg cn, bad name = true →
      lookupA st.datasourceStoreData name = some cfg →
      lookupA cfg "class_name" = some cn →
      (getDatasource env st name).1 =
        .error (.datasourceInitializationError name (msgF name))) := by
  constructor
  · intro name
    have hfold := initDatasources_fold_cache env bad msgF dsF horacle
      (keysA st.datasourceStoreData) st hwf
    have hdef : initDatasources env st
        = (keysA st.datasourceStoreData).foldl (initDatasourcesStep env) st :=
      rfl
    rw [hdef, hfold.2 name, hcache0]
    show (false || _) = _
    rw [Bool.false_or]
  · intro name cfg cn hbad hs hcls
    have hc0 : lookupA st.cachedDatasources name = none := by
      rw [hcache0]
      rfl
    have hcn' : lookupA
        (setA (substituteAllConfigVariables cfg
          (determineSubstitutions env st).1) "name" name) "class_name"
        = some (substituteString cn (determineSubstitutions env st).1) := by
      rw [lookupA_set_ne _ _ _ _ (by decide), lookupA_substituteAll, hcls]
      rfl
    have hor : ∀ c, env.buildDatasourceOracle name c = .error (msgF name) := by
      intro c
      rw [horacle name c, hbad]
      rfl
    have hi' : instantiateDatasourceFromConfig env
        (determineSubstitutions env st).2 name
        (substituteAllConfigVariables cfg (determineSubstitutions env st).1)
        = .error (.datasourceInitializationError name (msgF name)) :=
      instantiateDatasourceFromConfig_eval env
        (determineSubstitutions env st).2 name _ _ hcn'
        (.error (msgF name)) hor
    rw [getDatasource_miss_error env st name cfg _ hc0 hs hi']

/-- C4 witness: with `broken` failing and `good` succeeding, bulk
initialization caches exactly `good` and completes, while an ad-hoc get of
`broken` raises the wrapped initialization error. -/
theorem init_datasources_catches_and_continues_witness :
    ((lookupA (initDatasources mixedEnv mixedSt).cachedDatasources
      "good").isSome = true) ∧
    ((lookupA (initDatasources mixedEnv mixedSt).cachedDatasources
      "broken").isSome = false) ∧
    ((getDatasource mixedEnv mixedSt "broken").1 =
      .error (.datasourceInitializationError "broken" "boom")) := by
  have h := init_datasources_catches_and_continues mixedEnv mixedSt
    (fun n => n == "broken") (fun _ => "boom")
    (fun n => { name := n, config := [] })
    (fun n c => rfl)
    (by
      intro n hn
      have hn' : n = "broken" ∨ n = "good" := by
        simpa [mixedSt, baseState, keysA] using hn
      rcases hn' with rfl | rfl
      · exact ⟨[("class_name", "X")], "X", rfl, rfl⟩
      · exact ⟨[("class_name", "PandasDatasource")], "PandasDatasource",
          rfl, rfl⟩)
    rfl
  refine ⟨?_, ?_, ?_⟩
  · rw [h.1 "good"]
    decide
  · rw [h.1 "broken"]
    decide
  · exact h.2 "broken" [("class_name", "X")] "X" (by decide) rfl rfl

end GE2Proof
